import Mathlib

/-!
Shallow embedding of the snake game in `the_snake.py`.

Coordinates are pixel coordinates, as in the source: a grid cell is
`GRID_SIZE` x `GRID_SIZE` pixels and every game position is the pixel of
the top-left corner of its cell.  Randomness (Python's `randint`) is
modelled by passing the drawn grid coordinates as explicit arguments;
the `randint(0, n)` contract (inclusive bounds) appears as hypotheses of
the theorems that need it.
-/

/-- Pixel width of the playing field (`SCREEN_WIDTH = 640`). -/
def SCREEN_WIDTH : Int := 640

/-- Pixel height of the playing field (`SCREEN_HEIGHT = 480`). -/
def SCREEN_HEIGHT : Int := 480

/-- Side of one grid cell in pixels (`GRID_SIZE = 20`). -/
def GRID_SIZE : Int := 20

/-- Number of grid columns (`GRID_WIDTH = SCREEN_WIDTH // GRID_SIZE = 32`). -/
def GRID_WIDTH : Int := SCREEN_WIDTH / GRID_SIZE

/-- Number of grid rows (`GRID_HEIGHT = SCREEN_HEIGHT // GRID_SIZE = 24`). -/
def GRID_HEIGHT : Int := SCREEN_HEIGHT / GRID_SIZE

/-- A pixel position `(x, y)` on the field. -/
abbrev Pos := Int × Int

/-- Direction `UP = (0, -1)` in grid cells. -/
def UP : Pos := (0, -1)

/-- Direction `DOWN = (0, 1)` in grid cells. -/
def DOWN : Pos := (0, 1)

/-- Direction `LEFT = (-1, 0)` in grid cells. -/
def LEFT : Pos := (-1, 0)

/-- Direction `RIGHT = (1, 0)` in grid cells. -/
def RIGHT : Pos := (1, 0)

/-- RGB colour of the apple. -/
def APPLE_COLOR : Nat × Nat × Nat := (255, 0, 0)

/-- RGB colour of the snake. -/
def SNAKE_COLOR : Nat × Nat × Nat := (0, 255, 0)

/-- The fixed centered start cell used by `Snake.__init__` and `Snake.reset`:
`((SCREEN_WIDTH // 2 // GRID_SIZE) * GRID_SIZE, (SCREEN_HEIGHT // 2 // GRID_SIZE) * GRID_SIZE)`. -/
def start_cell : Pos :=
  ((SCREEN_WIDTH / 2 / GRID_SIZE) * GRID_SIZE,
   (SCREEN_HEIGHT / 2 / GRID_SIZE) * GRID_SIZE)

/-- State of the snake: the `GameObject` fields `position` and `body_color`
plus the fields set in `Snake.__init__`. -/
structure Snake where
  position : Pos
  body_color : Nat × Nat × Nat
  length : Nat
  positions : List Pos
  direction : Pos
  next_direction : Option Pos
deriving DecidableEq, Repr

/-- `Snake.__init__`: single segment at the centered start cell, moving right. -/
def Snake.init : Snake :=
  { position := start_cell
    body_color := SNAKE_COLOR
    length := 1
    positions := [start_cell]
    direction := RIGHT
    next_direction := none }

/-- `Snake.get_head_position`: `self.positions[0]`.  Python raises on an
empty list; the embedding returns `(0, 0)` there, a case no reachable state
produces. -/
def Snake.get_head_position (s : Snake) : Pos :=
  s.positions.headD (0, 0)

/-- `Snake.update_direction`: apply the pending direction unless it is the
exact 180-degree reversal of the current one, which is discarded. -/
def Snake.update_direction (s : Snake) : Snake :=
  match s.next_direction with
  | none => s
  | some nd =>
      if nd = (-s.direction.1, -s.direction.2) then
        { s with next_direction := none }
      else
        { s with direction := nd, next_direction := none }

/-- The edge wrap applied to the tentative head x coordinate
(lines 195-198 of the source: `if new_x < 0 ... elif new_x >= SCREEN_WIDTH ...`). -/
def wrap_x (nx : Int) : Int :=
  if nx < 0 then SCREEN_WIDTH - GRID_SIZE
  else if nx ≥ SCREEN_WIDTH then 0
  else nx

/-- The edge wrap applied to the tentative head y coordinate
(lines 200-203 of the source). -/
def wrap_y (ny : Int) : Int :=
  if ny < 0 then SCREEN_HEIGHT - GRID_SIZE
  else if ny ≥ SCREEN_HEIGHT then 0
  else ny

/-- The new head computed by `Snake.move` (lines 188-205): current head plus
`direction * GRID_SIZE`, wrapped at the edges. -/
def Snake.new_head (s : Snake) : Pos :=
  (wrap_x (s.get_head_position.1 + s.direction.1 * GRID_SIZE),
   wrap_y (s.get_head_position.2 + s.direction.2 * GRID_SIZE))

/-- `Snake.move` (lines 205-212): insert the new head at the front
(`positions.insert(0, new_head)`), then pop the tail (`positions.pop()`)
when the list has grown beyond `self.length`. -/
def Snake.move (s : Snake) : Snake :=
  let ps := s.new_head :: s.positions
  { s with positions := if ps.length > s.length then ps.dropLast else ps }

/-- `Snake.reset`: back to length 1 at the centered start cell, moving right,
no pending direction. -/
def Snake.reset (s : Snake) : Snake :=
  { s with
      length := 1
      positions := [start_cell]
      direction := RIGHT
      next_direction := none }

/-- State of the apple: the `GameObject` fields. -/
structure Apple where
  position : Pos
  body_color : Nat × Nat × Nat
deriving DecidableEq, Repr

/-- `Apple.randomize_position`: place the apple at grid cell
`(grid_x, grid_y)`, in pixels `(grid_x * GRID_SIZE, grid_y * GRID_SIZE)`.
The two arguments stand for the values drawn by
`randint(0, GRID_WIDTH - 1)` and `randint(0, GRID_HEIGHT - 1)`. -/
def Apple.randomize_position (a : Apple) (grid_x grid_y : Int) : Apple :=
  { a with position := (grid_x * GRID_SIZE, grid_y * GRID_SIZE) }

/-- `Apple.__init__`: red apple, position `(0, 0)` immediately overwritten by
`randomize_position`. -/
def Apple.init (grid_x grid_y : Int) : Apple :=
  Apple.randomize_position { position := (0, 0), body_color := APPLE_COLOR } grid_x grid_y

/-- The mutable state of the main loop: one snake, one apple. -/
structure GameState where
  snake : Snake
  apple : Apple
deriving DecidableEq, Repr

/-- Step 4 of the main loop: if the head is on the apple, grow the target
length by one and relocate the apple (to the cell drawn as `r1`). -/
def eat_step (g : GameState) (r1 : Int × Int) : GameState :=
  if g.snake.get_head_position = g.apple.position then
    { snake := { g.snake with length := g.snake.length + 1 }
      apple := g.apple.randomize_position r1.1 r1.2 }
  else g

/-- Step 5 of the main loop: if the head appears in `positions[1:]`, reset
the snake and relocate the apple (to the cell drawn as `r2`). -/
def bite_step (g : GameState) (r2 : Int × Int) : GameState :=
  if g.snake.get_head_position ∈ g.snake.positions.tail then
    { snake := g.snake.reset
      apple := g.apple.randomize_position r2.1 r2.2 }
  else g

/-- One iteration of the main loop (steps 2-5; input and rendering have no
effect on this state): latch the direction, move, check food, check self
collision.  `r1` and `r2` are the grid cells drawn at the two possible apple
relocations. -/
def tick (g : GameState) (r1 r2 : Int × Int) : GameState :=
  bite_step (eat_step { snake := g.snake.update_direction.move, apple := g.apple } r1) r2

/-- The snake right after step 3 (movement) of a tick. -/
def moved_snake (g : GameState) : Snake :=
  g.snake.update_direction.move

/-- Iterated ticks with a list of drawn apple cells. -/
def ticks (g : GameState) : List ((Int × Int) × (Int × Int)) → GameState
  | [] => g
  | r :: rs => ticks (tick g r.1 r.2) rs

/-- A tick consumes the food without self collision: after movement the head
is on the apple and not in the rest of the body. -/
def consumes (g : GameState) : Prop :=
  (moved_snake g).get_head_position = g.apple.position ∧
  (moved_snake g).get_head_position ∉ (moved_snake g).positions.tail

instance (g : GameState) : Decidable (consumes g) := by
  unfold consumes
  exact inferInstance

/-- Every tick of the trace is a food-consumption tick with no self
collision. -/
def consumesTrace : GameState → List ((Int × Int) × (Int × Int)) → Prop
  | _, [] => True
  | g, r :: rs => consumes g ∧ consumesTrace (tick g r.1 r.2) rs

instance instDecConsumesTrace :
    (g : GameState) → (rs : List ((Int × Int) × (Int × Int))) →
    Decidable (consumesTrace g rs)
  | _, [] => by unfold consumesTrace; exact inferInstance
  | g, r :: rs => by
      unfold consumesTrace
      have := instDecConsumesTrace (tick g r.1 r.2) rs
      exact inferInstance

/-- The position lies on the screen: `x` in `[0, SCREEN_WIDTH)` and `y` in
`[0, SCREEN_HEIGHT)`. -/
def in_bounds (p : Pos) : Prop :=
  0 ≤ p.1 ∧ p.1 < SCREEN_WIDTH ∧ 0 ≤ p.2 ∧ p.2 < SCREEN_HEIGHT

/-- The position is a valid grid cell: on screen and aligned to the grid. -/
def grid_cell (p : Pos) : Prop :=
  in_bounds p ∧ p.1 % GRID_SIZE = 0 ∧ p.2 % GRID_SIZE = 0

instance (p : Pos) : Decidable (in_bounds p) := by
  unfold in_bounds
  exact inferInstance

instance (p : Pos) : Decidable (grid_cell p) := by
  unfold grid_cell
  exact inferInstance

/-- The snake after the movement and food steps of a tick (the state whose
head the self-collision check of step 5 examines). -/
def fed_snake (g : GameState) : Snake :=
  if (moved_snake g).get_head_position = g.apple.position then
    { moved_snake g with length := (moved_snake g).length + 1 }
  else moved_snake g

/-! ### Concrete states used by witnesses and counterexamples -/

/-- A snake one cell short of the right edge, used to exercise the wrap in
the witness of C1. -/
def sC1 : Snake := { Snake.init with positions := [(620, 240)] }

/-- A snake moving right with a pending request to move left, for the
witness of C2. -/
def sC2 : Snake := { Snake.init with next_direction := some LEFT }

/-- A single-segment snake whose target length is 5, so a move grows the
body; used by the witness of C3. -/
def sC3 : Snake := { Snake.init with length := 5 }

/-- A snake at the left edge moving right: the input refuting C6 as
stated. -/
def sC6cex : Snake := { Snake.init with positions := [(0, 100)] }

/-- A snake at the left edge moving left, for the witness of the amended
C6. -/
def sC6 : Snake := { Snake.init with positions := [(0, 100)], direction := LEFT }

/-- An apple at the origin, used by the witness of C10. -/
def aC10 : Apple := { position := (0, 0), body_color := APPLE_COLOR }

/-- Game start state with the apple one cell to the right of the snake's
head; in the trace `rsC4` the apple is then drawn one further cell to the
right at each relocation, so every tick consumes. -/
def gC4 : GameState := { snake := Snake.init, apple := Apple.init 17 12 }

/-- Two consumption ticks worth of drawn apple cells for `gC4`. -/
def rsC4 : List ((Int × Int) × (Int × Int)) := [((18, 12), (0, 0)), ((19, 12), (0, 0))]

/-- A snake of target length 5 curled into a square about to bite its own
tail cell when it moves down; used by the witness of C5. -/
def gC5 : GameState :=
  { snake := { Snake.init with
      length := 5
      positions := [(100, 100), (120, 100), (120, 120), (100, 120)]
      direction := DOWN }
    apple := { position := (0, 0), body_color := APPLE_COLOR } }

/-- The scenario of C7 in pixels: a snake of length 3 at grid cells
`[(5,5),(4,5),(3,5)]` moving right, apple at grid cell `(6,5)`. -/
def gC7 : GameState :=
  { snake := { Snake.init with
      length := 3
      positions := [(100, 100), (80, 100), (60, 100)] }
    apple := { position := (120, 100), body_color := APPLE_COLOR } }

/-- Game start state used by the witness of C8. -/
def gC8 : GameState :=
  { snake := Snake.init, apple := { position := (0, 0), body_color := APPLE_COLOR } }

/-! ### Helper lemmas shared by the claim theorems -/

/-- `update_direction` does not touch the body. -/
lemma upd_positions (s : Snake) : (s.update_direction).positions = s.positions := by
  rcases h : s.next_direction with _ | nd
  · simp [Snake.update_direction, h]
  · simp only [Snake.update_direction, h]
    split_ifs <;> rfl

/-- `update_direction` does not touch the target length. -/
lemma upd_length (s : Snake) : (s.update_direction).length = s.length := by
  rcases h : s.next_direction with _ | nd
  · simp [Snake.update_direction, h]
  · simp only [Snake.update_direction, h]
    split_ifs <;> rfl

/-- The body after `move`, spelled out. -/
lemma move_positions_def (s : Snake) :
    (s.move).positions =
      if s.positions.length + 1 > s.length then (s.new_head :: s.positions).dropLast
      else s.new_head :: s.positions := rfl

/-- `move` does not touch the target length. -/
lemma move_length_frame (s : Snake) : (s.move).length = s.length := rfl

/-- `move` does not touch the direction. -/
lemma move_direction_frame (s : Snake) : (s.move).direction = s.direction := rfl

/-- After `move` of a snake with a nonempty body, the head is the freshly
computed `new_head`. -/
lemma move_head (s : Snake) (h : s.positions ≠ []) :
    (s.move).get_head_position = s.new_head := by
  rcases hp : s.positions with _ | ⟨a, l⟩
  · exact absurd hp h
  · show ((s.move).positions).headD (0, 0) = s.new_head
    rw [move_positions_def, hp]
    split_ifs with hlen
    · rw [List.dropLast_cons₂]
      rfl
    · rfl

/-- Behaviour of the x wrap on a grid-aligned in-bounds coordinate with a
unit step: it agrees with modulo arithmetic and lands on a valid column. -/
lemma wrap_x_spec (x dx : Int) (h0 : 0 ≤ x) (h1 : x < SCREEN_WIDTH)
    (hm : x % GRID_SIZE = 0) (hdx : dx = -1 ∨ dx = 0 ∨ dx = 1) :
    wrap_x (x + dx * GRID_SIZE) = (x + dx * GRID_SIZE) % SCREEN_WIDTH ∧
    0 ≤ wrap_x (x + dx * GRID_SIZE) ∧
    wrap_x (x + dx * GRID_SIZE) < SCREEN_WIDTH ∧
    wrap_x (x + dx * GRID_SIZE) % GRID_SIZE = 0 := by
  unfold wrap_x
  unfold SCREEN_WIDTH GRID_SIZE at *
  rcases hdx with h | h | h <;> subst h <;> split_ifs <;> omega

/-- Behaviour of the y wrap on a grid-aligned in-bounds coordinate with a
unit step: it agrees with modulo arithmetic and lands on a valid row. -/
lemma wrap_y_spec (y dy : Int) (h0 : 0 ≤ y) (h1 : y < SCREEN_HEIGHT)
    (hm : y % GRID_SIZE = 0) (hdy : dy = -1 ∨ dy = 0 ∨ dy = 1) :
    wrap_y (y + dy * GRID_SIZE) = (y + dy * GRID_SIZE) % SCREEN_HEIGHT ∧
    0 ≤ wrap_y (y + dy * GRID_SIZE) ∧
    wrap_y (y + dy * GRID_SIZE) < SCREEN_HEIGHT ∧
    wrap_y (y + dy * GRID_SIZE) % GRID_SIZE = 0 := by
  unfold wrap_y
  unfold SCREEN_HEIGHT GRID_SIZE at *
  rcases hdy with h | h | h <;> subst h <;> split_ifs <;> omega

/-- The four game directions have unit components. -/
lemma direction_components (d : Pos)
    (hd : d = UP ∨ d = DOWN ∨ d = LEFT ∨ d = RIGHT) :
    (d.1 = -1 ∨ d.1 = 0 ∨ d.1 = 1) ∧ (d.2 = -1 ∨ d.2 = 0 ∨ d.2 = 1) := by
  rcases hd with h | h | h | h <;> subst h <;> simp [UP, DOWN, LEFT, RIGHT]

/-- The new head of a snake on a valid grid cell moving in one of the four
directions is again a valid grid cell and equals the modulo formula. -/
lemma new_head_spec (s : Snake)
    (hd : s.direction = UP ∨ s.direction = DOWN ∨ s.direction = LEFT ∨ s.direction = RIGHT)
    (hh : grid_cell s.get_head_position) :
    grid_cell s.new_head ∧
    s.new_head =
      ((s.get_head_position.1 + s.direction.1 * GRID_SIZE) % SCREEN_WIDTH,
       (s.get_head_position.2 + s.direction.2 * GRID_SIZE) % SCREEN_HEIGHT) := by
  obtain ⟨⟨hx0, hx1, hy0, hy1⟩, hxm, hym⟩ := hh
  obtain ⟨hdx, hdy⟩ := direction_components s.direction hd
  obtain ⟨ex, bx0, bx1, mx⟩ := wrap_x_spec s.get_head_position.1 s.direction.1 hx0 hx1 hxm hdx
  obtain ⟨ey, by0, by1, my⟩ := wrap_y_spec s.get_head_position.2 s.direction.2 hy0 hy1 hym hdy
  refine ⟨⟨⟨bx0, bx1, by0, by1⟩, mx, my⟩, ?_⟩
  show (_, _) = (_, _)
  rw [ex, ey]

/-! ### Claim theorems -/

/-- C1: for every snake with a (nonempty) body whose head is a valid grid
cell and whose direction is one of the four movement directions, the head
after `Snake.move` lies within grid bounds, and the wrap is exactly modulo
arithmetic on each coordinate. -/
theorem C1_move_head_in_bounds (s : Snake)
    (hne : s.positions ≠ [])
    (hd : s.direction = UP ∨ s.direction = DOWN ∨ s.direction = LEFT ∨ s.direction = RIGHT)
    (hh : grid_cell s.get_head_position) :
    in_bounds (s.move).get_head_position ∧
    (s.move).get_head_position =
      ((s.get_head_position.1 + s.direction.1 * GRID_SIZE) % SCREEN_WIDTH,
       (s.get_head_position.2 + s.direction.2 * GRID_SIZE) % SCREEN_HEIGHT) := by
  have h1 := new_head_spec s hd hh
  have h2 := move_head s hne
  rw [h2]
  exact ⟨h1.1.1, h1.2⟩

/-- Witness for C1: the snake at `(620, 240)` moving right wraps to the left
edge, in bounds and equal to the modulo formula. -/
theorem C1_witness :
    in_bounds (sC1.move).get_head_position ∧
    (sC1.move).get_head_position =
      ((sC1.get_head_position.1 + sC1.direction.1 * GRID_SIZE) % SCREEN_WIDTH,
       (sC1.get_head_position.2 + sC1.direction.2 * GRID_SIZE) % SCREEN_HEIGHT) :=
  C1_move_head_in_bounds sC1 (by decide) (by decide) (by decide)

/-- C2: when the pending direction is the exact opposite of the current one,
`Snake.update_direction` leaves the direction unchanged and discards the
request. -/
theorem C2_reversal_discarded (s : Snake)
    (h : s.next_direction = some (-s.direction.1, -s.direction.2)) :
    (s.update_direction).direction = s.direction ∧
    (s.update_direction).next_direction = none := by
  simp [Snake.update_direction, h]

/-- Witness for C2: with direction right and pending left, the direction
stays right and the request is dropped. -/
theorem C2_witness :
    (sC2.update_direction).direction = sC2.direction ∧
    (sC2.update_direction).next_direction = none :=
  C2_reversal_discarded sC2 (by decide)

/-- C9: `Snake.move` changes only the `positions` field; `length`,
`direction`, `next_direction` and `body_color` are untouched. -/
theorem C9_move_frame (s : Snake) :
    (s.move).length = s.length ∧
    (s.move).direction = s.direction ∧
    (s.move).next_direction = s.next_direction ∧
    (s.move).body_color = s.body_color :=
  ⟨rfl, rfl, rfl, rfl⟩

/-- C3: `Snake.move` puts the new head at the front and removes exactly the
last element if and only if the grown list exceeds the target length; in
particular a body already at target length keeps its length. -/
theorem C3_move_grow_trim (s : Snake) :
    (s.positions.length + 1 > s.length →
      (s.move).positions = (s.new_head :: s.positions).dropLast ∧
      (s.move).positions.length = s.positions.length) ∧
    (¬ s.positions.length + 1 > s.length →
      (s.move).positions = s.new_head :: s.positions ∧
      (s.move).positions.length = s.positions.length + 1) ∧
    (s.positions.length = s.length →
      (s.move).positions.length = s.positions.length) := by
  refine ⟨?_, ?_, ?_⟩
  · intro h
    rw [move_positions_def, if_pos h]
    refine ⟨rfl, ?_⟩
    rw [List.length_dropLast]
    simp
  · intro h
    rw [move_positions_def, if_neg h]
    exact ⟨rfl, rfl⟩
  · intro h
    have hgt : s.positions.length + 1 > s.length := by omega
    rw [move_positions_def, if_pos hgt, List.length_dropLast]
    simp

/-- Witness for C3: the initial snake (already at target length) trims and
keeps its length; a snake below target length grows by one. -/
theorem C3_witness :
    ((Snake.init.move).positions = (Snake.init.new_head :: Snake.init.positions).dropLast ∧
     (Snake.init.move).positions.length = Snake.init.positions.length) ∧
    ((sC3.move).positions = sC3.new_head :: sC3.positions ∧
     (sC3.move).positions.length = sC3.positions.length + 1) :=
  ⟨(C3_move_grow_trim Snake.init).1 (by decide),
   (C3_move_grow_trim sC3).2.1 (by decide)⟩

/-- C6 counterexample: a snake with head at the left edge `(0, 100)` moving
RIGHT gets head `(GRID_SIZE, 100)` from `Snake.move`, not the claimed
wrapped head at the right edge `((GRID_WIDTH - 1) * GRID_SIZE, 100)`. -/
theorem C6_counterexample :
    sC6cex.get_head_position = (0, 100) ∧
    sC6cex.direction = RIGHT ∧
    (sC6cex.move).get_head_position = (GRID_SIZE, 100) ∧
    (sC6cex.move).get_head_position ≠ ((GRID_WIDTH - 1) * GRID_SIZE, 100) := by
  decide

/-- C6 amended: a snake whose head is at the left edge moving LEFT wraps to
the right edge, `x = (GRID_WIDTH - 1) * GRID_SIZE` with `y` unchanged. -/
theorem C6_left_edge_wrap (s : Snake) (y : Int)
    (hne : s.positions ≠ [])
    (hpos : s.get_head_position = (0, y))
    (hd : s.direction = LEFT)
    (hy0 : 0 ≤ y) (hy1 : y < SCREEN_HEIGHT) :
    (s.move).get_head_position = ((GRID_WIDTH - 1) * GRID_SIZE, y) := by
  rw [move_head s hne]
  unfold Snake.new_head wrap_x wrap_y
  rw [hpos, hd]
  unfold SCREEN_HEIGHT at hy1
  simp only [LEFT, GRID_WIDTH, SCREEN_WIDTH, SCREEN_HEIGHT, GRID_SIZE]
  norm_num
  omega

/-- Witness for the amended C6: the snake at `(0, 100)` moving left ends at
`(620, 100)`. -/
theorem C6_witness :
    (sC6.move).get_head_position = ((GRID_WIDTH - 1) * GRID_SIZE, 100) :=
  C6_left_edge_wrap sC6 100 (by decide) (by decide) (by decide) (by decide) (by decide)

/-- C10: with grid coordinates drawn in the `randint` ranges,
`Apple.randomize_position` places the apple on a valid grid cell (grid
aligned, on screen), and `Apple.__init__` places it exactly where
`randomize_position` does. -/
theorem C10_apple_on_grid (a : Apple) (gx gy : Int)
    (h1 : 0 ≤ gx) (h2 : gx ≤ GRID_WIDTH - 1)
    (h3 : 0 ≤ gy) (h4 : gy ≤ GRID_HEIGHT - 1) :
    grid_cell (a.randomize_position gx gy).position ∧
    (Apple.init gx gy).position = (a.randomize_position gx gy).position := by
  refine ⟨?_, rfl⟩
  show grid_cell (gx * GRID_SIZE, gy * GRID_SIZE)
  simp only [GRID_WIDTH, GRID_HEIGHT] at h2 h4
  unfold grid_cell in_bounds
  simp only [SCREEN_WIDTH, SCREEN_HEIGHT, GRID_SIZE] at h2 h4 ⊢
  omega

/-- Witness for C10: the maximal draw `(31, 23)` gives the bottom-right grid
cell `(620, 460)`. -/
theorem C10_witness :
    grid_cell (aC10.randomize_position 31 23).position ∧
    (Apple.init 31 23).position = (aC10.randomize_position 31 23).position :=
  C10_apple_on_grid aC10 31 23 (by decide) (by decide) (by decide) (by decide)

/-- The food step of a tick leaves exactly the fed snake and relocates the
apple precisely when the moved head is on it. -/
lemma eat_step_state (g : GameState) (r1 : Int × Int) :
    eat_step { snake := moved_snake g, apple := g.apple } r1 =
      { snake := fed_snake g
        apple := if (moved_snake g).get_head_position = g.apple.position
                 then g.apple.randomize_position r1.1 r1.2 else g.apple } := by
  unfold eat_step fed_snake
  split_ifs <;> rfl

/-- The fed snake has the same body as the moved snake. -/
lemma fed_positions (g : GameState) :
    (fed_snake g).positions = (moved_snake g).positions := by
  unfold fed_snake
  split_ifs <;> rfl

/-- The fed snake has the same head as the moved snake. -/
lemma fed_head (g : GameState) :
    (fed_snake g).get_head_position = (moved_snake g).get_head_position := by
  unfold Snake.get_head_position
  rw [fed_positions]

/-- The snake a tick produces: the fed snake, reset exactly when its head
bites the rest of its body. -/
lemma tick_snake (g : GameState) (r1 r2 : Int × Int) :
    (tick g r1 r2).snake =
      if (fed_snake g).get_head_position ∈ (fed_snake g).positions.tail
      then (fed_snake g).reset else fed_snake g := by
  unfold tick
  have h := eat_step_state g r1
  unfold moved_snake at h
  rw [h]
  unfold bite_step
  split_ifs <;> rfl

/-- The apple a tick produces. -/
lemma tick_apple (g : GameState) (r1 r2 : Int × Int) :
    (tick g r1 r2).apple =
      if (fed_snake g).get_head_position ∈ (fed_snake g).positions.tail
      then (if (moved_snake g).get_head_position = g.apple.position
            then g.apple.randomize_position r1.1 r1.2
            else g.apple).randomize_position r2.1 r2.2
      else (if (moved_snake g).get_head_position = g.apple.position
            then g.apple.randomize_position r1.1 r1.2 else g.apple) := by
  unfold tick
  have h := eat_step_state g r1
  unfold moved_snake at h
  rw [h]
  unfold moved_snake bite_step
  split_ifs <;> rfl

/-- A consumption tick without self collision adds exactly one to the target
length. -/
lemma consumes_length (g : GameState) (r1 r2 : Int × Int) (h : consumes g) :
    (tick g r1 r2).snake.length = g.snake.length + 1 := by
  obtain ⟨he, hn⟩ := h
  have hb : (fed_snake g).get_head_position ∉ (fed_snake g).positions.tail := by
    rw [fed_head, fed_positions]
    exact hn
  rw [tick_snake, if_neg hb]
  unfold fed_snake
  rw [if_pos he]
  show (moved_snake g).length + 1 = g.snake.length + 1
  unfold moved_snake
  rw [move_length_frame, upd_length]

/-- `move` keeps the body length within the target length. -/
lemma move_len_le (s : Snake) (h : s.positions.length ≤ s.length) :
    (s.move).positions.length ≤ (s.move).length := by
  rw [move_length_frame, move_positions_def]
  split_ifs with hgt
  · rw [List.length_dropLast]
    simp only [List.length_cons]
    omega
  · simp only [List.length_cons]
    omega

/-- The snake after the movement and food steps keeps the body length within
the target length. -/
lemma fed_len_le (g : GameState) (h : g.snake.positions.length ≤ g.snake.length) :
    (fed_snake g).positions.length ≤ (fed_snake g).length := by
  have h1 : (moved_snake g).positions.length ≤ (moved_snake g).length := by
    unfold moved_snake
    apply move_len_le
    rw [upd_positions, upd_length]
    exact h
  unfold fed_snake
  split_ifs
  · exact Nat.le_succ_of_le h1
  · exact h1

/-- C5: in a tick, if after movement (and the food check, which does not
touch the body) the head appears in `positions[1:]`, the snake is reset to
a single segment at the start cell moving right with no pending direction
and the apple is relocated to the drawn cell; if not, the snake is left
exactly as the food step produced it. -/
theorem C5_self_collision_reset (g : GameState) (r1 r2 : Int × Int) :
    ((moved_snake g).get_head_position ∈ (moved_snake g).positions.tail →
      (tick g r1 r2).snake.length = 1 ∧
      (tick g r1 r2).snake.positions = [start_cell] ∧
      (tick g r1 r2).snake.direction = RIGHT ∧
      (tick g r1 r2).snake.next_direction = none ∧
      (tick g r1 r2).apple.position = (r2.1 * GRID_SIZE, r2.2 * GRID_SIZE)) ∧
    ((moved_snake g).get_head_position ∉ (moved_snake g).positions.tail →
      (tick g r1 r2).snake = fed_snake g) := by
  constructor
  · intro h
    have h2 : (fed_snake g).get_head_position ∈ (fed_snake g).positions.tail := by
      rw [fed_head, fed_positions]
      exact h
    rw [tick_snake, if_pos h2, tick_apple, if_pos h2]
    refine ⟨rfl, rfl, rfl, rfl, ?_⟩
    split_ifs <;> rfl
  · intro h
    have h2 : (fed_snake g).get_head_position ∉ (fed_snake g).positions.tail := by
      rw [fed_head, fed_positions]
      exact h
    rw [tick_snake, if_neg h2]

/-- Witness for C5: the curled snake of `gC5` bites its own tail cell; the
tick resets it and puts the apple at the drawn cell `(3, 4)`. -/
theorem C5_witness :
    (tick gC5 (0, 0) (3, 4)).snake.length = 1 ∧
    (tick gC5 (0, 0) (3, 4)).snake.positions = [start_cell] ∧
    (tick gC5 (0, 0) (3, 4)).snake.direction = RIGHT ∧
    (tick gC5 (0, 0) (3, 4)).snake.next_direction = none ∧
    (tick gC5 (0, 0) (3, 4)).apple.position = ((3 : Int) * GRID_SIZE, (4 : Int) * GRID_SIZE) :=
  (C5_self_collision_reset gC5 (0, 0) (3, 4)).1 (by decide)

/-- C4: in a tick without self collision, the target length grows by one and
the apple is relocated exactly when the moved head is on the apple;
consequently, over any trace of consumption ticks without self collision the
target length grows by exactly the number of ticks. -/
theorem C4_food_grows_length :
    (∀ (g : GameState) (r1 r2 : Int × Int),
      (moved_snake g).get_head_position ∉ (moved_snake g).positions.tail →
      (tick g r1 r2).snake.length =
        (if (moved_snake g).get_head_position = g.apple.position
         then g.snake.length + 1 else g.snake.length) ∧
      (tick g r1 r2).apple =
        (if (moved_snake g).get_head_position = g.apple.position
         then g.apple.randomize_position r1.1 r1.2 else g.apple)) ∧
    (∀ (g : GameState) (rs : List ((Int × Int) × (Int × Int))),
      consumesTrace g rs →
      (ticks g rs).snake.length = g.snake.length + rs.length) := by
  have hlen : ∀ g : GameState, (moved_snake g).length = g.snake.length := by
    intro g
    unfold moved_snake
    rw [move_length_frame, upd_length]
  constructor
  · intro g r1 r2 h
    have h2 : (fed_snake g).get_head_position ∉ (fed_snake g).positions.tail := by
      rw [fed_head, fed_positions]
      exact h
    rw [tick_snake, if_neg h2, tick_apple, if_neg h2]
    refine ⟨?_, rfl⟩
    unfold fed_snake
    split_ifs
    · show (moved_snake g).length + 1 = g.snake.length + 1
      rw [hlen]
    · exact hlen g
  · intro g rs
    induction rs generalizing g with
    | nil => intro _; rfl
    | cons r rest ih =>
        intro h
        simp only [consumesTrace] at h
        obtain ⟨hc, ht⟩ := h
        show (ticks (tick g r.1 r.2) rest).snake.length = _
        rw [ih (tick g r.1 r.2) ht, consumes_length g r.1 r.2 hc]
        simp only [List.length_cons]
        omega

/-- Witness for C4: from the start state with the apple one cell ahead, two
consumption ticks raise the target length from 1 to 3. -/
theorem C4_witness :
    (ticks gC4 rsC4).snake.length = gC4.snake.length + rsC4.length :=
  C4_food_grows_length.2 gC4 rsC4 (by decide)

/-- C7: on the concrete scenario `gC7` (length 3 at grid cells
`[(5,5),(4,5),(3,5)]` moving right, apple at `(6,5)`), one tick puts the
head on the apple cell and raises the target length to 4, and the next
movement keeps all four cells: no tail is trimmed since 4 does not exceed
the new target 4. -/
theorem C7_scenario :
    (tick gC7 (2, 2) (0, 0)).snake.get_head_position = (120, 100) ∧
    (tick gC7 (2, 2) (0, 0)).snake.length = 4 ∧
    (tick gC7 (2, 2) (0, 0)).snake.positions = [(120, 100), (100, 100), (80, 100)] ∧
    ((tick gC7 (2, 2) (0, 0)).snake.move).positions =
      [(140, 100), (120, 100), (100, 100), (80, 100)] ∧
    ((tick gC7 (2, 2) (0, 0)).snake.move).positions.length = 4 := by
  decide

/-- C8: the body length never exceeds the target length: the predicate holds
initially, is preserved by `move`, holds after `reset`, is preserved by the
food-consumption length increment, and is restored by the end of every
tick. -/
theorem C8_length_invariant :
    Snake.init.positions.length ≤ Snake.init.length ∧
    (∀ s : Snake, s.positions.length ≤ s.length →
      (s.move).positions.length ≤ (s.move).length) ∧
    (∀ s : Snake, (s.reset).positions.length ≤ (s.reset).length) ∧
    (∀ s : Snake, s.positions.length ≤ s.length →
      ({ s with length := s.length + 1 } : Snake).positions.length ≤
        ({ s with length := s.length + 1 } : Snake).length) ∧
    (∀ (g : GameState) (r1 r2 : Int × Int),
      g.snake.positions.length ≤ g.snake.length →
      (tick g r1 r2).snake.positions.length ≤ (tick g r1 r2).snake.length) := by
  refine ⟨by decide, move_len_le, ?_, ?_, ?_⟩
  · intro s
    show 1 ≤ 1
    exact le_refl 1
  · intro s h
    exact Nat.le_succ_of_le h
  · intro g r1 r2 h
    rw [tick_snake]
    split_ifs
    · show 1 ≤ 1
      exact le_refl 1
    · exact fed_len_le g h

/-- Witness for C8: the invariant is preserved by a move of the start snake
and by a full tick of the start state. -/
theorem C8_witness :
    (Snake.init.move).positions.length ≤ (Snake.init.move).length ∧
    (tick gC8 (1, 1) (2, 2)).snake.positions.length ≤ (tick gC8 (1, 1) (2, 2)).snake.length :=
  ⟨C8_length_invariant.2.1 Snake.init (by decide),
   C8_length_invariant.2.2.2.2 gC8 (1, 1) (2, 2) (by decide)⟩
